import Mathlib

/-
  Shallow embedding of the alife grid simulation (lifeform.py, grid_simulation.py).

  Python floats are modelled as real numbers; random draws are passed as explicit
  parameters (the caller of each function supplies the values that the Python code
  obtains from an RNG).  Draws taken from the seeded per-concern streams
  (`lifeform_rng`, per-square `food_rng`, ...) and draws taken from the process-global
  `random` module (`random.choice` in `Lifeform.update` and `Lifeform.fight`) are kept
  apart in the parameter names: parameters named `globalDx` / `globalDy` model the
  module-level `random.choice([-1, 0, 1])` calls, which do NOT come from any of the
  seeded streams created in `GridSimulation.__init__`.

  The Python `id` field (a global `itertools.count()`) and the stored RNG references
  are not part of the state: no claim depends on them, and all randomness is explicit.
-/

namespace Alife

noncomputable section

/-- Python float modulo `t % n` for a positive modulus `n`: `t - n * ⌊t / n⌋`. -/
def fmod (t n : ℝ) : ℝ := t - n * (⌊t / n⌋ : ℤ)

/-- The seasonal angle `(time_period % 52) * (2π/52)` used by
`GridSquare.get_seasonal_multiplier`, `Lifeform.can_move` and `Lifeform.move_to`. -/
def seasonalAngle (t : ℝ) : ℝ := fmod t 52 * (2 * Real.pi / 52)

/-- `GridSquare.get_seasonal_multiplier` (lifeform.py lines 21-30):
`1.0 + 0.6 * cos(seasonal_angle - π)`. -/
def get_seasonal_multiplier (t : ℝ) : ℝ :=
  1.0 + 0.6 * Real.cos (seasonalAngle t - Real.pi)

/-- The seasonal movement-cost multiplier computed inside `Lifeform.can_move`
(lifeform.py line 193) and `Lifeform.move_to` (line 205): `1.0 + 0.5 * cos(angle)`. -/
def seasonal_cost_multiplier (t : ℝ) : ℝ :=
  1.0 + 0.5 * Real.cos (seasonalAngle t)

/-- One grid square's food state (class `GridSquare`, lifeform.py).
`depletion_timer` starts at 0 (the `hasattr` initialisation in `regenerate_food`). -/
structure GridSquare where
  food_amount : ℝ
  max_food : ℝ
  regen_rate : ℝ
  base_regen_rate : ℝ
  depletion_timer : ℝ
  depletion_duration : ℝ

/-- `GridSquare.has_food` (lifeform.py line 79): `food_amount > 50.0`. -/
def has_food (sq : GridSquare) : Prop := sq.food_amount > 50.0

instance (sq : GridSquare) : Decidable (has_food sq) := by
  unfold has_food; infer_instance

/-- `GridSquare.consume_food` (lifeform.py lines 72-75): returns
`min(amount, food_amount)` and deducts it from the square. -/
def consume_food (sq : GridSquare) (amount : ℝ) : ℝ × GridSquare :=
  (min amount sq.food_amount,
   { sq with food_amount := sq.food_amount - min amount sq.food_amount })

/-- `if x > m then m else x`: the clamping pattern used for food and health caps. -/
def clampMax (x m : ℝ) : ℝ := if x > m then m else x

/-- `if x < 0 then 0 else x`: the flooring pattern used for food and health floors. -/
def floorZero (x : ℝ) : ℝ := if x < 0 then 0 else x

/-- The depletion-start check of `GridSquare.regenerate_food` (lifeform.py lines 40-42):
when no depletion is active and the `food_rng.random()` draw is below 0.02, start a
depletion period whose duration is the `uniform(6.0, 10.0)` draw `durDraw`. -/
def startDepletion (sq : GridSquare) (startDraw durDraw : ℝ) : GridSquare :=
  if sq.depletion_timer ≤ 0 ∧ startDraw < 0.02 then
    { sq with depletion_timer := durDraw, depletion_duration := durDraw }
  else sq

/-- The food-change part of `GridSquare.regenerate_food` (lifeform.py lines 44-70),
after the depletion-start check. -/
def regenStep (sq : GridSquare) (dt t : ℝ) : GridSquare :=
  if 0 < sq.depletion_timer then
    { sq with
      food_amount :=
        floorZero (sq.food_amount - sq.regen_rate * get_seasonal_multiplier t * 0.7 * dt),
      depletion_timer := sq.depletion_timer - dt }
  else if sq.food_amount < sq.max_food * get_seasonal_multiplier t then
    { sq with
      food_amount :=
        clampMax (sq.food_amount + sq.regen_rate * get_seasonal_multiplier t * dt)
          (sq.max_food * get_seasonal_multiplier t) }
  else if get_seasonal_multiplier t < 1.0 ∧
      sq.max_food * get_seasonal_multiplier t < sq.food_amount then
    { sq with
      food_amount :=
        max (sq.food_amount - sq.regen_rate * 0.3 * dt)
          (sq.max_food * get_seasonal_multiplier t) }
  else sq

/-- `GridSquare.regenerate_food(dt, time_period)` (lifeform.py lines 32-70), with the
two RNG draws it may consume passed explicitly. -/
def regenerate_food (sq : GridSquare) (dt t startDraw durDraw : ℝ) : GridSquare :=
  regenStep (startDepletion sq startDraw durDraw) dt t

/-- One organism's state (class `Lifeform`, lifeform.py).  `food_per_second` is an
integer in Python (`int(uniform(2, 7))`); its value is carried here as a real. -/
structure Lifeform where
  grid_x : ℤ
  grid_y : ℤ
  max_health : ℝ
  health : ℝ
  movement_threshold : ℝ
  food_per_second : ℝ
  alive : Bool
  death_timer : ℝ
  max_x : ℤ
  max_y : ℤ

/-- Class constant `Lifeform.fade_time = 7.0` (lifeform.py line 108). -/
def fade_time : ℝ := 7.0

/-- Class constant `Lifeform.movement_cost = 3.0` (lifeform.py line 109). -/
def movement_cost : ℝ := 3.0

/-- The total seasonal movement cost `movement_cost * seasonal_cost_multiplier`
computed in `can_move` and `move_to`. -/
def total_movement_cost (t : ℝ) : ℝ := movement_cost * seasonal_cost_multiplier t

/-- `Lifeform.can_move(time_period)` (lifeform.py lines 185-196): dead lifeforms
cannot move; otherwise both `health > movement_threshold` and
`health ≥ total_movement_cost` must hold. -/
def can_move (lf : Lifeform) (t : ℝ) : Prop :=
  lf.alive = true ∧ lf.movement_threshold < lf.health ∧ total_movement_cost t ≤ lf.health

instance (lf : Lifeform) (t : ℝ) : Decidable (can_move lf t) := by
  unfold can_move; infer_instance

/-- `Lifeform.move_to(new_x, new_y, time_period)` (lifeform.py lines 198-218):
re-checks `can_move`; on failure returns `false` with the lifeform unchanged; on
success deducts the seasonal cost (floored at 0), updates the position and returns
`true`.  (The `if new_x > 9 or new_y > 9: pass` in the source is a no-op.) -/
def move_to (lf : Lifeform) (nx ny : ℤ) (t : ℝ) : Bool × Lifeform :=
  if can_move lf t then
    (true,
     { lf with
       health := floorZero (lf.health - total_movement_cost t),
       grid_x := nx, grid_y := ny })
  else (false, lf)

/-- The inward re-bias applied to a raw move delta in `Lifeform.update`
(lifeform.py lines 162-169) and `Lifeform.fight` (lines 233-240, 254-261):
`if d + pos < 0: d = 1 elif d + pos >= mx: d = -1`. -/
def rebias (d pos mx : ℤ) : ℤ :=
  if d + pos < 0 then 1 else if mx ≤ d + pos then -1 else d

/-- The hunger-decay tail of `Lifeform.update` (lifeform.py lines 176-183):
`health -= 1.0 * dt`, then die (`alive = False`, `death_timer = 0`) if `health ≤ 0`. -/
def applyHunger (lf : Lifeform) (dt : ℝ) : Lifeform :=
  if lf.health - 1.0 * dt ≤ 0 then
    { lf with health := lf.health - 1.0 * dt, alive := false, death_timer := 0 }
  else
    { lf with health := lf.health - 1.0 * dt }

/-- `Lifeform.update(dt, time_period, current_square)` (lifeform.py lines 144-183).
`globalDx`, `globalDy` are the `random.choice([-1, 0, 1])` draws taken from the
process-global `random` module (lines 160-161) — NOT from a seeded stream.
Returns the updated lifeform and the (possibly eaten-from) square. -/
def update (lf : Lifeform) (dt t : ℝ) (sq : GridSquare) (globalDx globalDy : ℤ) :
    Lifeform × GridSquare :=
  if lf.alive = true then
    if has_food sq then
      let c := consume_food sq (lf.food_per_second * dt)
      (applyHunger
        { lf with health := clampMax (lf.health + c.1 * 2.0) lf.max_health } dt,
       c.2)
    else
      let nx := rebias globalDx lf.grid_x lf.max_x + lf.grid_x
      let ny := rebias globalDy lf.grid_y lf.max_y + lf.grid_y
      let mv := move_to lf nx ny t
      if mv.1 = true then (applyHunger mv.2 dt, sq)
      else ({ lf with alive := false, death_timer := 0 }, sq)
  else (lf, sq)

/-- The `Lifeform.__init__` constructor (lifeform.py lines 111-130): a negative
`max_health` / `movement_threshold` argument means "draw a fresh trait"
(`hpDraw` / `mtDraw`); otherwise the given inherited value is used.  `health` is
set to the resulting `max_health` (line 121).  `fpsDraw` carries the value of
`int(uniform(2, 7))`. -/
def mkLifeform (gx gy mx my : ℤ) (mh mt hpDraw mtDraw fpsDraw : ℝ) : Lifeform :=
  { grid_x := gx, grid_y := gy,
    max_health := if mh < 0 then hpDraw else mh,
    health := if mh < 0 then hpDraw else mh,
    movement_threshold := if mt < 0 then mtDraw else mt,
    food_per_second := fpsDraw,
    alive := true,
    death_timer := -1.0,
    max_x := mx, max_y := my }

/-- `Lifeform.reproduce(current_square, grid_x, grid_y, max_x, max_y)`
(lifeform.py lines 132-141).  `reproDraw` is the `uniform(0, 1)` engagement draw;
`u1`, `u2` are the two `uniform(0.85, 1.15)` perturbation draws; the remaining
draws feed the child constructor. -/
def reproduce (lf : Lifeform) (sq : GridSquare) (gx gy mx my : ℤ)
    (reproDraw u1 u2 hpDraw mtDraw fpsDraw : ℝ) : Option Lifeform :=
  if lf.max_health * 0.8 < lf.health ∧
      1 - 0.025 * sq.food_amount / 700 < reproDraw then
    some (mkLifeform gx gy mx my (lf.max_health * u1) (lf.movement_threshold * u2)
      hpDraw mtDraw fpsDraw)
  else none

/-- The pair of healths mutated by the exchange loop of `Lifeform.start_fighting`
(lifeform.py lines 272-277): `sh` is `self.health`, `oh` is `other.health`. -/
structure FightState where
  sh : ℝ
  oh : ℝ

/-- One round of the exchange loop (lifeform.py lines 274-277): `di` is the round's
`damage_inflicted` draw, `dr` the `damage_received` draw; both healths drop
simultaneously. -/
def fightStep (di dr : ℝ) (st : FightState) : FightState :=
  ⟨st.sh - dr, st.oh - di⟩

/-- The state after `k` unconditional rounds of the exchange loop, round `n`
consuming the draws `di n` and `dr n`. -/
def fightIter (di dr : ℕ → ℝ) (st : FightState) : ℕ → FightState
  | 0 => st
  | n + 1 => fightStep (di n) (dr n) (fightIter di dr st n)

/-- The guard of the `while` loop in `start_fighting` (lifeform.py line 273):
both combatants are still above their flee thresholds. -/
def fightCond (fleeS fleeO : ℝ) (st : FightState) : Prop :=
  fleeS < st.sh ∧ fleeO < st.oh

/-- The `while` loop of `start_fighting` terminates exactly when its guard fails at
some round of the (draw-driven) iteration. -/
def FightTerminates (fleeS fleeO : ℝ) (di dr : ℕ → ℝ) (st : FightState) : Prop :=
  ∃ k, ¬ fightCond fleeS fleeO (fightIter di dr st k)

/-- The post-loop death check of `start_fighting` (lifeform.py lines 278-283):
a combatant whose health is `≤ 0` dies (`alive = False`, `death_timer = 0`). -/
def applyDeath (lf : Lifeform) : Lifeform :=
  if lf.health ≤ 0 then { lf with alive := false, death_timer := 0 } else lf

/-- The per-lifeform part of `GridSimulation.update_simulation` (grid_simulation.py
lines 460-469): alive lifeforms run `Lifeform.update` against their current square;
dead lifeforms with a non-negative `death_timer` advance it by the (speed-adjusted)
`dt`; others are untouched. -/
def tickLifeform (dt t : ℝ) (sq : GridSquare) (globalDx globalDy : ℤ)
    (lf : Lifeform) : Lifeform :=
  if lf.alive = true then (update lf dt t sq globalDx globalDy).1
  else if 0 ≤ lf.death_timer then { lf with death_timer := lf.death_timer + dt }
  else lf

/-- The survivor filter of `update_simulation` (grid_simulation.py line 472):
keep a lifeform when it is alive or its `death_timer` is below `fade_time`. -/
def keepLifeform (lf : Lifeform) : Bool :=
  if lf.alive = true ∨ lf.death_timer < fade_time then true else false

/-- `self.lifeforms = [lf for lf in self.lifeforms if lf.alive or lf.death_timer < 7.0]`. -/
def pruneLifeforms (ls : List Lifeform) : List Lifeform :=
  ls.filter keepLifeform

/-- A square with no usable food (`food_amount = 0 ≤ 50`, so `has_food` is false). -/
def noFoodCell : GridSquare :=
  { food_amount := 0, max_food := 60, regen_rate := 1, base_regen_rate := 1,
    depletion_timer := 0, depletion_duration := 0 }

/-- A square with abundant food (`food_amount = 700 > 50`). -/
def richCell : GridSquare :=
  { food_amount := 700, max_food := 1000, regen_rate := 1, base_regen_rate := 1,
    depletion_timer := 0, depletion_duration := 0 }

/-- A healthy agent at (5, 5) on a 10×10 grid: full health 50, threshold 10. -/
def healthyAgent : Lifeform :=
  { grid_x := 5, grid_y := 5, max_health := 50, health := 50,
    movement_threshold := 10, food_per_second := 3, alive := true,
    death_timer := -1, max_x := 10, max_y := 10 }

/-- A weak agent: health 5 below its movement threshold 10 (the spec's
failed-move scenario). -/
def weakAgent : Lifeform :=
  { grid_x := 5, grid_y := 5, max_health := 50, health := 5,
    movement_threshold := 10, food_per_second := 3, alive := true,
    death_timer := -1, max_x := 10, max_y := 10 }

/-- A dead agent that has been fading for 3 time-units. -/
def deadAgent : Lifeform :=
  { grid_x := 2, grid_y := 2, max_health := 50, health := 0,
    movement_threshold := 10, food_per_second := 3, alive := false,
    death_timer := 3, max_x := 10, max_y := 10 }

/-- The child produced by `reproduce` in the concrete reproduction scenario used
below: spawned at (5, 5), inheriting the parent's traits times perturbation 1. -/
def c10Child : Lifeform :=
  mkLifeform 5 5 10 10 (healthyAgent.max_health * 1) (healthyAgent.movement_threshold * 1)
    0 0 0

/- Helper lemmas about the embedded operations. -/

lemma fmod_zero_of_lt (t n : ℝ) (h0 : 0 ≤ t) (hn : t < n) : fmod t n = t := by
  unfold fmod
  have hnpos : 0 < n := lt_of_le_of_lt h0 hn
  have : ⌊t / n⌋ = 0 := by
    rw [Int.floor_eq_zero_iff]
    constructor
    · exact div_nonneg h0 hnpos.le
    · rw [div_lt_one hnpos]; exact hn
  rw [this]
  push_cast
  ring

lemma seasonalAngle_zero : seasonalAngle 0 = 0 := by
  unfold seasonalAngle
  rw [fmod_zero_of_lt 0 52 le_rfl (by norm_num)]
  ring

lemma seasonalAngle_26 : seasonalAngle 26 = Real.pi := by
  unfold seasonalAngle
  rw [fmod_zero_of_lt 26 52 (by norm_num) (by norm_num)]
  ring

lemma get_seasonal_multiplier_26 : get_seasonal_multiplier 26 = 1.6 := by
  unfold get_seasonal_multiplier
  rw [seasonalAngle_26, sub_self, Real.cos_zero]
  norm_num

lemma seasonal_cost_multiplier_zero : seasonal_cost_multiplier 0 = 1.5 := by
  unfold seasonal_cost_multiplier
  rw [seasonalAngle_zero, Real.cos_zero]
  norm_num

lemma total_movement_cost_zero : total_movement_cost 0 = 4.5 := by
  unfold total_movement_cost movement_cost
  rw [seasonal_cost_multiplier_zero]
  norm_num

lemma total_movement_cost_nonneg (t : ℝ) : 0 ≤ total_movement_cost t := by
  unfold total_movement_cost movement_cost seasonal_cost_multiplier
  nlinarith [Real.neg_one_le_cos (seasonalAngle t)]

lemma clampMax_le (x m : ℝ) : clampMax x m ≤ m ∨ clampMax x m = x := by
  unfold clampMax
  split_ifs with h
  · left; exact le_rfl
  · right; rfl

lemma clampMax_le_of_le (x m : ℝ) : clampMax x m ≤ m := by
  unfold clampMax
  split_ifs with h
  · exact le_rfl
  · exact le_of_not_lt h

lemma floorZero_nonneg (x : ℝ) : 0 ≤ floorZero x := by
  unfold floorZero
  split_ifs with h
  · exact le_rfl
  · exact le_of_not_lt h

lemma floorZero_sub_le (a c : ℝ) (ha : 0 ≤ a) (hc : 0 ≤ c) : floorZero (a - c) ≤ a := by
  unfold floorZero
  split_ifs with h
  · exact ha
  · linarith

@[simp] lemma applyHunger_grid_x (lf : Lifeform) (dt : ℝ) :
    (applyHunger lf dt).grid_x = lf.grid_x := by
  unfold applyHunger; split_ifs <;> rfl

@[simp] lemma applyHunger_grid_y (lf : Lifeform) (dt : ℝ) :
    (applyHunger lf dt).grid_y = lf.grid_y := by
  unfold applyHunger; split_ifs <;> rfl

@[simp] lemma applyHunger_max_x (lf : Lifeform) (dt : ℝ) :
    (applyHunger lf dt).max_x = lf.max_x := by
  unfold applyHunger; split_ifs <;> rfl

@[simp] lemma applyHunger_max_y (lf : Lifeform) (dt : ℝ) :
    (applyHunger lf dt).max_y = lf.max_y := by
  unfold applyHunger; split_ifs <;> rfl

@[simp] lemma applyHunger_max_health (lf : Lifeform) (dt : ℝ) :
    (applyHunger lf dt).max_health = lf.max_health := by
  unfold applyHunger; split_ifs <;> rfl

@[simp] lemma applyHunger_health (lf : Lifeform) (dt : ℝ) :
    (applyHunger lf dt).health = lf.health - 1.0 * dt := by
  unfold applyHunger; split_ifs <;> rfl

lemma applyHunger_cases (lf : Lifeform) (dt : ℝ) :
    (lf.health - 1.0 * dt ≤ 0 ∧ (applyHunger lf dt).alive = false ∧
      (applyHunger lf dt).death_timer = 0) ∨
    (0 < lf.health - 1.0 * dt ∧ (applyHunger lf dt).alive = lf.alive ∧
      (applyHunger lf dt).death_timer = lf.death_timer) := by
  unfold applyHunger
  split_ifs with h
  · left; exact ⟨h, rfl, rfl⟩
  · right; exact ⟨lt_of_not_le h, rfl, rfl⟩

lemma rebias_mem (d p m : ℤ) (hd : -1 ≤ d ∧ d ≤ 1) (hp : 0 ≤ p ∧ p < m)
    (hm : 2 ≤ m) : 0 ≤ rebias d p m + p ∧ rebias d p m + p < m := by
  unfold rebias
  split_ifs <;> omega

lemma faded_not_mem_prune (g : Lifeform) (ls : List Lifeform)
    (ha : g.alive = false) (ht : fade_time ≤ g.death_timer) :
    g ∉ pruneLifeforms ls := by
  intro hmem
  unfold pruneLifeforms at hmem
  have hk := (List.mem_filter.mp hmem).2
  unfold keepLifeform at hk
  split_ifs at hk with hc
  rcases hc with hc | hc
  · rw [ha] at hc; exact Bool.false_ne_true hc
  · exact absurd hc (not_lt.mpr ht)

lemma update_feed (lf : Lifeform) (dt t : ℝ) (sq : GridSquare) (dx dy : ℤ)
    (halive : lf.alive = true) (hf : has_food sq) :
    update lf dt t sq dx dy =
      (applyHunger
        { lf with
          health :=
            clampMax (lf.health + min (lf.food_per_second * dt) sq.food_amount * 2.0)
              lf.max_health } dt,
       { sq with
         food_amount := sq.food_amount - min (lf.food_per_second * dt) sq.food_amount }) := by
  unfold update consume_food
  rw [if_pos halive, if_pos hf]

lemma update_move_success (lf : Lifeform) (dt t : ℝ) (sq : GridSquare) (dx dy : ℤ)
    (halive : lf.alive = true) (hnf : ¬ has_food sq) (hcm : can_move lf t) :
    update lf dt t sq dx dy =
      (applyHunger
        { lf with
          health := floorZero (lf.health - total_movement_cost t),
          grid_x := rebias dx lf.grid_x lf.max_x + lf.grid_x,
          grid_y := rebias dy lf.grid_y lf.max_y + lf.grid_y } dt,
       sq) := by
  unfold update move_to
  rw [if_pos halive, if_neg hnf]
  simp only [if_pos hcm]
  simp

lemma update_move_fail (lf : Lifeform) (dt t : ℝ) (sq : GridSquare) (dx dy : ℤ)
    (halive : lf.alive = true) (hnf : ¬ has_food sq) (hcm : ¬ can_move lf t) :
    update lf dt t sq dx dy = ({ lf with alive := false, death_timer := 0 }, sq) := by
  unfold update move_to
  rw [if_pos halive, if_neg hnf]
  simp only [if_neg hcm]
  simp

lemma startDepletion_no_start (sq : GridSquare) (startDraw durDraw : ℝ)
    (hnd : ¬ startDraw < 0.02) : startDepletion sq startDraw durDraw = sq := by
  unfold startDepletion
  rw [if_neg (fun h => hnd h.2)]

lemma noFoodCell_not_has_food : ¬ has_food noFoodCell := by
  norm_num [has_food, noFoodCell]

lemma healthyAgent_can_move : can_move healthyAgent 0 := by
  refine ⟨rfl, by norm_num [healthyAgent], ?_⟩
  rw [total_movement_cost_zero]
  norm_num [healthyAgent]

lemma applyHunger_invariant (g : Lifeform) (dt : ℝ) (hgm : g.health ≤ g.max_health)
    (hdt : 0 < dt) :
    ((applyHunger g dt).alive = true →
      0 < (applyHunger g dt).health ∧
      (applyHunger g dt).health ≤ (applyHunger g dt).max_health) ∧
    ((applyHunger g dt).health ≤ 0 →
      (applyHunger g dt).alive = false ∧ (applyHunger g dt).death_timer = 0) := by
  rcases applyHunger_cases g dt with ⟨hle, ha, ht⟩ | ⟨hlt, ha, ht⟩
  · constructor
    · intro h
      rw [ha] at h
      exact absurd h (by simp)
    · intro _
      exact ⟨ha, ht⟩
  · constructor
    · intro _
      rw [applyHunger_health, applyHunger_max_health]
      exact ⟨hlt, by linarith⟩
    · intro h
      rw [applyHunger_health] at h
      linarith

/- Claim theorems. -/

/-- Claim C9: the seasonal food multiplier is exactly periodic with period 52:
`seasonal_multiplier(t + 52) = seasonal_multiplier(t)` for every time value `t`. -/
theorem c9_seasonal_periodic (t : ℝ) :
    get_seasonal_multiplier (t + 52) = get_seasonal_multiplier t := by
  unfold get_seasonal_multiplier seasonalAngle fmod
  have h1 : (t + 52) / 52 = t / 52 + 1 := by ring
  rw [h1, Int.floor_add_one]
  push_cast
  ring_nf

/-- Claim C8: a cell with `max_food = 30`, `regen_rate = 1.0`, `food_amount = 0`,
no active depletion, updated once by `regenerate_food` with `dt = 10` at
`time_period = 26` (seasonal multiplier exactly 1.6) and a depletion-start draw
that does not fire, ends with `food_amount = 16` (growth `1.0 × 1.6 × 10`,
below the seasonal cap `48`). -/
theorem c8_regen_scenario (startDraw durDraw : ℝ) (hnd : ¬ startDraw < 0.02) :
    get_seasonal_multiplier 26 = 1.6 ∧
    (regenerate_food
        { food_amount := 0, max_food := 30, regen_rate := 1.0, base_regen_rate := 1.0,
          depletion_timer := 0, depletion_duration := 0 } 10 26 startDraw
        durDraw).food_amount = 16 := by
  refine ⟨get_seasonal_multiplier_26, ?_⟩
  unfold regenerate_food
  rw [startDepletion_no_start _ _ _ hnd]
  unfold regenStep
  simp only [get_seasonal_multiplier_26]
  norm_num [clampMax]

theorem c8_regen_scenario_witness :
    get_seasonal_multiplier 26 = 1.6 ∧
    (regenerate_food
        { food_amount := 0, max_food := 30, regen_rate := 1.0, base_regen_rate := 1.0,
          depletion_timer := 0, depletion_duration := 0 } 10 26 1 0).food_amount
      = 16 :=
  c8_regen_scenario 1 0 (by norm_num)

/-- Claim C1 (code bug witness): the observable state after `Lifeform.update` depends
on the draw taken from the process-global `random` module, which none of the fixed
seeds control: with every seeded-stream input identical, the two possible global
draws `+1` and `-1` send the same agent to different positions. -/
theorem c1_global_rng_breaks_determinism :
    (update healthyAgent 1 0 noFoodCell 1 0).1.grid_x = 6 ∧
    (update healthyAgent 1 0 noFoodCell (-1) 0).1.grid_x = 4 := by
  constructor <;>
  · rw [update_move_success healthyAgent 1 0 noFoodCell _ 0 rfl
      noFoodCell_not_has_food healthyAgent_can_move]
    simp only [applyHunger_grid_x]
    norm_num [rebias, healthyAgent]

/-- Claim C2 counterexample: an alive agent with `health = 5` below its movement
threshold `10`, on a cell without food, fails its move and dies with its health
unchanged at 5 — the flat hunger decay `1.0 × dt` is NOT applied in this branch
(it would have left health 4). -/
theorem c2_counterexample :
    (update weakAgent 1 0 noFoodCell 0 0).1.health = 5 ∧
    (update weakAgent 1 0 noFoodCell 0 0).1.health ≠ weakAgent.health - 1.0 * 1 := by
  have hcm : ¬ can_move weakAgent 0 := by
    intro h
    have := h.2.1
    norm_num [weakAgent] at this
  rw [update_move_fail weakAgent 1 0 noFoodCell 0 0 rfl noFoodCell_not_has_food hcm]
  norm_num [weakAgent]

/-- Claim C2 (amended): for an alive agent the flat hunger decay of `1.0 × dt` is
applied after the feed branch and after a successful move; but when the cell has no
food and the attempted move fails, the agent dies immediately and the update ends
with its health unchanged — the decay is not applied in that branch. -/
theorem c2_amended (lf : Lifeform) (dt t : ℝ) (sq : GridSquare) (dx dy : ℤ)
    (halive : lf.alive = true) :
    (has_food sq →
      (update lf dt t sq dx dy).1.health =
        clampMax (lf.health + min (lf.food_per_second * dt) sq.food_amount * 2.0)
          lf.max_health - 1.0 * dt) ∧
    (¬ has_food sq → can_move lf t →
      (update lf dt t sq dx dy).1.health =
        floorZero (lf.health - total_movement_cost t) - 1.0 * dt) ∧
    (¬ has_food sq → ¬ can_move lf t →
      (update lf dt t sq dx dy).1.health = lf.health ∧
      (update lf dt t sq dx dy).1.alive = false) := by
  refine ⟨fun hf => ?_, fun hnf hcm => ?_, fun hnf hcm => ?_⟩
  · rw [update_feed lf dt t sq dx dy halive hf]
    simp
  · rw [update_move_success lf dt t sq dx dy halive hnf hcm]
    simp
  · rw [update_move_fail lf dt t sq dx dy halive hnf hcm]
    exact ⟨rfl, rfl⟩

theorem c2_amended_witness :
    (update weakAgent 1 0 noFoodCell 0 0).1.health = weakAgent.health ∧
    (update weakAgent 1 0 noFoodCell 0 0).1.alive = false := by
  have hcm : ¬ can_move weakAgent 0 := by
    intro h
    have := h.2.1
    norm_num [weakAgent] at this
  exact (c2_amended weakAgent 1 0 noFoodCell 0 0 rfl).2.2 noFoodCell_not_has_food hcm

/-- Claim C6: for an alive agent, `can_move` holds iff health exceeds the movement
threshold AND health covers `movement_cost × seasonal_cost_multiplier` (two
independent conjuncts); `move_to` re-checks the gate and on failure returns false
with the lifeform (in particular its position) unchanged; on success it returns
true, moves to the target, and deducts the seasonal cost from health floored at 0,
never driving health negative. -/
theorem c6_movement_gate (lf : Lifeform) (t : ℝ) (nx ny : ℤ)
    (halive : lf.alive = true) :
    (can_move lf t ↔
      (lf.movement_threshold < lf.health ∧
        movement_cost * seasonal_cost_multiplier t ≤ lf.health)) ∧
    (¬ can_move lf t → move_to lf nx ny t = (false, lf)) ∧
    (can_move lf t →
      (move_to lf nx ny t).1 = true ∧
      (move_to lf nx ny t).2.grid_x = nx ∧
      (move_to lf nx ny t).2.grid_y = ny ∧
      (move_to lf nx ny t).2.health = max (lf.health - total_movement_cost t) 0 ∧
      0 ≤ (move_to lf nx ny t).2.health) := by
  refine ⟨?_, fun hcm => ?_, fun hcm => ?_⟩
  · unfold can_move total_movement_cost
    simp [halive]
  · unfold move_to
    rw [if_neg hcm]
  · unfold move_to
    rw [if_pos hcm]
    refine ⟨rfl, rfl, rfl, ?_, ?_⟩
    · show floorZero (lf.health - total_movement_cost t) = _
      unfold floorZero
      split_ifs with h
      · rw [max_eq_right]
        linarith
      · rw [max_eq_left]
        linarith
    · exact floorZero_nonneg _

theorem c6_movement_gate_witness :
    (move_to healthyAgent 3 4 0).1 = true ∧
    (move_to healthyAgent 3 4 0).2.grid_x = 3 ∧
    (move_to healthyAgent 3 4 0).2.grid_y = 4 ∧
    (move_to healthyAgent 3 4 0).2.health =
      max (healthyAgent.health - total_movement_cost 0) 0 ∧
    0 ≤ (move_to healthyAgent 3 4 0).2.health :=
  (c6_movement_gate healthyAgent 0 3 4 rfl).2.2 healthyAgent_can_move

/-- Claim C10: a child returned by `reproduce` is created at full health: its
`health` equals its own `max_health`, which is the parent's `max_health` times the
uniform perturbation draw `u1 ∈ [0.85, 1.15]` — not the parent's current health. -/
theorem c10_child_full_health (lf : Lifeform) (sq : GridSquare) (gx gy mx my : ℤ)
    (reproDraw u1 u2 hpDraw mtDraw fpsDraw : ℝ) (child : Lifeform)
    (hu1 : 0.85 ≤ u1 ∧ u1 ≤ 1.15) (hmh : 0 < lf.max_health)
    (h : reproduce lf sq gx gy mx my reproDraw u1 u2 hpDraw mtDraw fpsDraw
      = some child) :
    child.health = child.max_health ∧ child.max_health = lf.max_health * u1 := by
  have hnn : ¬ lf.max_health * u1 < 0 := by nlinarith [hu1.1]
  unfold reproduce at h
  split_ifs at h with hc
  have hchild := Option.some.inj h
  subst hchild
  constructor <;> simp [mkLifeform, hnn]

theorem c10_child_full_health_witness :
    c10Child.health = c10Child.max_health ∧
    c10Child.max_health = healthyAgent.max_health * 1 := by
  refine c10_child_full_health healthyAgent richCell 5 5 10 10 0.99 1 1 0 0 0 c10Child
    ⟨by norm_num, by norm_num⟩ (by norm_num [healthyAgent]) ?_
  unfold reproduce c10Child
  rw [if_pos]
  constructor <;> norm_num [healthyAgent, richCell]

/-- Claim C3: health invariant — for an alive agent with `0 < health ≤ max_health`
and `dt > 0`, after one complete `Lifeform.update` step: if the agent is still
alive then `0 < health ≤ max_health`; and if its health dropped to `≤ 0` then it
is dead with `death_timer = 0` in that same update. -/
theorem c3_health_invariant (lf : Lifeform) (dt t : ℝ) (sq : GridSquare) (dx dy : ℤ)
    (halive : lf.alive = true) (hpos : 0 < lf.health)
    (hmax : lf.health ≤ lf.max_health) (hdt : 0 < dt) :
    ((update lf dt t sq dx dy).1.alive = true →
      0 < (update lf dt t sq dx dy).1.health ∧
      (update lf dt t sq dx dy).1.health ≤ (update lf dt t sq dx dy).1.max_health) ∧
    ((update lf dt t sq dx dy).1.health ≤ 0 →
      (update lf dt t sq dx dy).1.alive = false ∧
      (update lf dt t sq dx dy).1.death_timer = 0) := by
  by_cases hf : has_food sq
  · rw [update_feed lf dt t sq dx dy halive hf]
    exact applyHunger_invariant _ dt (clampMax_le_of_le _ _) hdt
  · by_cases hcm : can_move lf t
    · rw [update_move_success lf dt t sq dx dy halive hf hcm]
      refine applyHunger_invariant _ dt ?_ hdt
      show floorZero (lf.health - total_movement_cost t) ≤ lf.max_health
      exact le_trans
        (floorZero_sub_le _ _ (le_of_lt hpos) (total_movement_cost_nonneg t)) hmax
    · rw [update_move_fail lf dt t sq dx dy halive hf hcm]
      constructor
      · intro h
        simp at h
      · intro h
        exact absurd h (not_le.mpr hpos)

theorem c3_health_invariant_witness :
    ((update healthyAgent 1 0 richCell 0 0).1.alive = true →
      0 < (update healthyAgent 1 0 richCell 0 0).1.health ∧
      (update healthyAgent 1 0 richCell 0 0).1.health ≤
        (update healthyAgent 1 0 richCell 0 0).1.max_health) ∧
    ((update healthyAgent 1 0 richCell 0 0).1.health ≤ 0 →
      (update healthyAgent 1 0 richCell 0 0).1.alive = false ∧
      (update healthyAgent 1 0 richCell 0 0).1.death_timer = 0) :=
  c3_health_invariant healthyAgent 1 0 richCell 0 0 rfl
    (by norm_num [healthyAgent]) (by norm_num [healthyAgent]) (by norm_num)

/-- Claim C5: position invariant — an agent whose position is in bounds before
`Lifeform.update` is still in bounds after it, for every grid size the simulation
can be constructed with (all its sizes are ≥ 2; the inward re-bias never produces
an out-of-bounds target for such grids). -/
theorem c5_position_invariant (lf : Lifeform) (dt t : ℝ) (sq : GridSquare)
    (dx dy : ℤ)
    (hx : 0 ≤ lf.grid_x ∧ lf.grid_x < lf.max_x)
    (hy : 0 ≤ lf.grid_y ∧ lf.grid_y < lf.max_y)
    (hmx : 2 ≤ lf.max_x) (hmy : 2 ≤ lf.max_y)
    (hdx : -1 ≤ dx ∧ dx ≤ 1) (hdy : -1 ≤ dy ∧ dy ≤ 1) :
    (0 ≤ (update lf dt t sq dx dy).1.grid_x ∧
      (update lf dt t sq dx dy).1.grid_x < (update lf dt t sq dx dy).1.max_x) ∧
    (0 ≤ (update lf dt t sq dx dy).1.grid_y ∧
      (update lf dt t sq dx dy).1.grid_y < (update lf dt t sq dx dy).1.max_y) := by
  by_cases halive : lf.alive = true
  · by_cases hf : has_food sq
    · rw [update_feed lf dt t sq dx dy halive hf]
      simp only [applyHunger_grid_x, applyHunger_grid_y, applyHunger_max_x,
        applyHunger_max_y]
      exact ⟨hx, hy⟩
    · by_cases hcm : can_move lf t
      · rw [update_move_success lf dt t sq dx dy halive hf hcm]
        simp only [applyHunger_grid_x, applyHunger_grid_y, applyHunger_max_x,
          applyHunger_max_y]
        exact ⟨rebias_mem dx lf.grid_x lf.max_x hdx hx hmx,
          rebias_mem dy lf.grid_y lf.max_y hdy hy hmy⟩
      · rw [update_move_fail lf dt t sq dx dy halive hf hcm]
        exact ⟨hx, hy⟩
  · unfold update
    rw [if_neg halive]
    exact ⟨hx, hy⟩

theorem c5_position_invariant_witness :
    (0 ≤ (update healthyAgent 1 0 noFoodCell 1 1).1.grid_x ∧
      (update healthyAgent 1 0 noFoodCell 1 1).1.grid_x <
        (update healthyAgent 1 0 noFoodCell 1 1).1.max_x) ∧
    (0 ≤ (update healthyAgent 1 0 noFoodCell 1 1).1.grid_y ∧
      (update healthyAgent 1 0 noFoodCell 1 1).1.grid_y <
        (update healthyAgent 1 0 noFoodCell 1 1).1.max_y) :=
  c5_position_invariant healthyAgent 1 0 noFoodCell 1 1
    ⟨by norm_num [healthyAgent], by norm_num [healthyAgent]⟩
    ⟨by norm_num [healthyAgent], by norm_num [healthyAgent]⟩
    (by norm_num [healthyAgent]) (by norm_num [healthyAgent])
    ⟨by norm_num, by norm_num⟩ ⟨by norm_num, by norm_num⟩

/-- Claim C7: once an agent is dead with `death_timer ≥ 0`, a tick advances the
timer by exactly the tick's `dt` (so it is non-decreasing and never reset while
dead), and an agent whose timer has reached `fade_time = 7.0` is removed by the
end-of-tick filter, hence absent from the next tick's agent collection. -/
theorem c7_fade_monotone_removal (dt t : ℝ) (sq : GridSquare) (dx dy : ℤ)
    (lf : Lifeform) (hdead : lf.alive = false) (h0 : 0 ≤ lf.death_timer)
    (hdt : 0 ≤ dt) :
    (tickLifeform dt t sq dx dy lf).death_timer = lf.death_timer + dt ∧
    lf.death_timer ≤ (tickLifeform dt t sq dx dy lf).death_timer ∧
    (fade_time ≤ (tickLifeform dt t sq dx dy lf).death_timer →
      ∀ ls : List Lifeform, tickLifeform dt t sq dx dy lf ∉ pruneLifeforms ls) := by
  have htick : tickLifeform dt t sq dx dy lf =
      { lf with death_timer := lf.death_timer + dt } := by
    unfold tickLifeform
    rw [if_neg (by simp [hdead]), if_pos h0]
  rw [htick]
  refine ⟨rfl, ?_, fun hfade ls => ?_⟩
  · show lf.death_timer ≤ lf.death_timer + dt
    linarith
  · exact faded_not_mem_prune _ ls hdead hfade

theorem c7_fade_monotone_removal_witness :
    (tickLifeform 5 0 noFoodCell 0 0 deadAgent).death_timer =
      deadAgent.death_timer + 5 ∧
    deadAgent.death_timer ≤ (tickLifeform 5 0 noFoodCell 0 0 deadAgent).death_timer ∧
    tickLifeform 5 0 noFoodCell 0 0 deadAgent ∉
      pruneLifeforms [tickLifeform 5 0 noFoodCell 0 0 deadAgent] := by
  have h := c7_fade_monotone_removal 5 0 noFoodCell 0 0 deadAgent rfl
    (by norm_num [deadAgent]) (by norm_num)
  refine ⟨h.1, h.2.1, h.2.2 ?_ _⟩
  rw [h.1]
  norm_num [deadAgent, fade_time]

/-- Claim C4 counterexample: with both flee thresholds forced to 0 and both
combatants at health 50, the draw sequence in which every damage roll is 0 (a legal
value of `uniform(0, health/max_health*10)`) leaves both healths at 50 forever: the
exchange loop of `start_fighting` never exits, so the fight does not complete
within any bounded number of rounds. -/
theorem c4_counterexample :
    ¬ FightTerminates 0 0 (fun _ => 0) (fun _ => 0) ⟨50, 50⟩ := by
  rintro ⟨k, hk⟩
  have hconst : ∀ n, fightIter (fun _ => (0 : ℝ)) (fun _ => 0) ⟨50, 50⟩ n
      = ⟨50, 50⟩ := by
    intro n
    induction n with
    | zero => rfl
    | succ n ih => simp [fightIter, fightStep, ih]
  rw [hconst k] at hk
  exact hk (by unfold fightCond; norm_num)

/-- Claim C4 (amended): whenever the exchange loop of `start_fighting` with both
flee thresholds 0 does exit — which the all-zero damage sequence shows need not
happen within any bound — the post-loop death check leaves at most one combatant
alive: exactly one survivor, or both dead; never both alive above threshold 0. -/
theorem c4_exit_outcome (self other : Lifeform) (di dr : ℕ → ℝ) (k : ℕ)
    (hexit : ¬ fightCond 0 0 (fightIter di dr ⟨self.health, other.health⟩ k)) :
    (applyDeath { self with
        health := (fightIter di dr ⟨self.health, other.health⟩ k).sh }).alive
      = false ∨
    (applyDeath { other with
        health := (fightIter di dr ⟨self.health, other.health⟩ k).oh }).alive
      = false := by
  have h1 : (fightIter di dr ⟨self.health, other.health⟩ k).sh ≤ 0 ∨
      (fightIter di dr ⟨self.health, other.health⟩ k).oh ≤ 0 := by
    by_contra hc
    push_neg at hc
    exact hexit ⟨hc.1, hc.2⟩
  rcases h1 with h | h
  · left
    unfold applyDeath
    split_ifs with hcase
    · rfl
    · exact absurd h hcase
  · right
    unfold applyDeath
    split_ifs with hcase
    · rfl
    · exact absurd h hcase

theorem c4_exit_outcome_witness :
    (applyDeath { healthyAgent with
        health := (fightIter (fun _ => 10) (fun _ => 10)
          ⟨healthyAgent.health, healthyAgent.health⟩ 5).sh }).alive = false ∨
    (applyDeath { healthyAgent with
        health := (fightIter (fun _ => 10) (fun _ => 10)
          ⟨healthyAgent.health, healthyAgent.health⟩ 5).oh }).alive = false := by
  refine c4_exit_outcome healthyAgent healthyAgent (fun _ => 10) (fun _ => 10) 5 ?_
  have h5 : fightIter (fun _ => (10 : ℝ)) (fun _ => 10)
      ⟨healthyAgent.health, healthyAgent.health⟩ 5
      = ⟨healthyAgent.health - 10 - 10 - 10 - 10 - 10,
         healthyAgent.health - 10 - 10 - 10 - 10 - 10⟩ := rfl
  rw [h5]
  unfold fightCond
  norm_num [healthyAgent]

end

end Alife
